import Mathlib

/-!
Shallow embedding of the wagmi fork's connection core:
`src/packages/core/src/createConfig.ts` (connection state store, event
mediator, client cache, public `setState`) and
`src/unnamed/part_000` (the `experimental_connector` fallback transport).

JavaScript `Map<string, Connection>` values are modelled as insertion-ordered
association lists; clients are opaque objects whose reference identity is
modelled by a fresh natural-number id drawn from a counter; a JavaScript
runtime `TypeError` (dereferencing `null`/`undefined`) is modelled as an
`Except` error.
-/

namespace Wagmi

/-- A connector as the state store sees it: its `uid` (assigned by the
registry via the emitter) and the `isPriorityProvider` flag consulted by
`getClient` (createConfig.ts line 147). All other capabilities
(`getProvider`, emitter wiring) are side effects outside the state model. -/
structure Connector where
  uid : String
  isPriorityProvider : Bool
  deriving DecidableEq, Repr

/-- Type `Connection` (createConfig.ts lines 451-455): accounts, chain id, and a
reference to the live connector. Addresses are modelled as strings. -/
structure Connection where
  accounts : List String
  chainId : Nat
  connector : Connector
  deriving DecidableEq, Repr

/-- The `status` enum of `State` (createConfig.ts line 444). -/
inductive Status
  | connected
  | connecting
  | disconnected
  | reconnecting
  deriving DecidableEq, Repr

/-- Type `State` (createConfig.ts lines 438-445). `connections` is a JS `Map`
keyed by connector uid; it is modelled as an insertion-ordered association
list (JS `Map` iteration order is insertion order). -/
structure State where
  chainId : Nat
  connections : List (String × Connection)
  current : Option String
  status : Status
  deriving DecidableEq, Repr

/-- JS `Map.get`: the value stored under `k` (keys are unique in a JS `Map`,
so the first entry is the entry). -/
def mapLookup (k : String) : List (String × Connection) → Option Connection
  | [] => none
  | (k', v) :: rest => if k' = k then some v else mapLookup k rest

/-- JS `Map.set`: replace the value in place if the key exists (JS `Map.set`
keeps the original insertion position), otherwise append. -/
def mapSet (k : String) (v : Connection) :
    List (String × Connection) → List (String × Connection)
  | [] => [(k, v)]
  | (k', v') :: rest =>
    if k' = k then (k, v) :: rest else (k', v') :: mapSet k v rest

/-- JS `Map.delete`: remove the entry for `k`, preserving the order of the
others. -/
def mapDelete (k : String) (m : List (String × Connection)) :
    List (String × Connection) :=
  m.filter (fun e => e.1 ≠ k)

/-- The `initialState` object (createConfig.ts lines 195-200): `chainId` is the first
configured chain's id (`chains[0].id`; the chains tuple type is non-empty,
so `headD 0` is only a total-function default). -/
def initialState (chains : List Nat) : State :=
  { chainId := chains.headD 0
    connections := []
    current := none
    status := .disconnected }

/-- A JavaScript runtime error observable in the embedded code paths:
`TypeError` from dereferencing `null`/`undefined` or from applying the
`in` operator to `null`. -/
inductive JsError
  | typeError
  deriving DecidableEq, Repr

/-- Payload of a connector `change` event: optional new accounts and
optional new chain id (either may be absent, JS `undefined`). -/
structure ChangeData where
  uid : String
  accounts : Option (List String)
  chainId : Option Nat
  deriving DecidableEq, Repr

/-- Payload of a connector `connect` event. -/
structure ConnectData where
  uid : String
  accounts : List String
  chainId : Nat
  deriving DecidableEq, Repr

/-- Payload of a connector `disconnect` event. -/
structure DisconnectData where
  uid : String
  deriving DecidableEq, Repr

/-- The `change` event handler's state updater (createConfig.ts lines
256-270). The source reads `const connection = x.connections.get(data.uid)!`
and then builds the replacement entry from `connection.accounts`,
`connection.chainId` and `connection.connector`; when the uid has no entry,
`connection` is `undefined` and the property access
(`connection.connector` at the latest) throws a `TypeError`, so the updater
fails instead of committing a state. -/
def change (data : ChangeData) (x : State) : Except JsError State :=
  match mapLookup data.uid x.connections with
  | none => .error .typeError
  | some connection =>
    .ok { x with
      connections := mapSet data.uid
        { accounts := data.accounts.getD connection.accounts
          chainId := data.chainId.getD connection.chainId
          connector := connection.connector } x.connections }

/-- The `connect` event handler (createConfig.ts lines 271-293):
handling is disabled while `status` is `connecting` or `reconnecting`;
otherwise the connector is looked up by uid in the registry (`connectors`),
a missing connector is a no-op, and a found connector's entry is
inserted/overwritten with `current := uid` and `status := connected`. -/
def connect (connectors : List Connector) (data : ConnectData) (x : State) :
    State :=
  if x.status = Status.connecting ∨ x.status = Status.reconnecting then x
  else
    match connectors.find? (fun c => c.uid = data.uid) with
    | none => x
    | some connector =>
      { x with
        connections := mapSet data.uid
          { accounts := data.accounts
            chainId := data.chainId
            connector := connector } x.connections
        current := some data.uid
        status := .connected }

/-- The `disconnect` event handler's state updater (createConfig.ts lines
294-320): delete the uid's entry; if the map became empty, reset to
`disconnected` with no current; otherwise `current` becomes the connector
uid of the first remaining entry in insertion order
(`x.connections.values().next().value`). The emitter rewiring on lines
297-301 is a side effect on listeners outside the state and is not part of
the state transition. -/
def disconnect (data : DisconnectData) (x : State) : State :=
  match mapDelete data.uid x.connections with
  | [] =>
    { x with connections := [], current := none, status := .disconnected }
  | (k, c) :: rest =>
    { x with
      connections := (k, c) :: rest
      current := some c.connector.uid }

/-- The selector of the sync-connected-chain subscription (createConfig.ts
lines 230-231): `current ? connections.get(current)?.chainId : undefined`. -/
def syncChainSelector (x : State) : Option Nat :=
  match x.current with
  | none => none
  | some cur => (mapLookup cur x.connections).map (fun c => c.chainId)

/-- The listener of the sync-connected-chain subscription (createConfig.ts
lines 232-241): if the reported chain id is not some configured chain's id
(`chains.some((x) => x.id === chainId)`, false when the report is
`undefined`), do nothing; otherwise set `chainId := reported ?? old`. -/
def syncChainListener (chains : List Nat) (reported : Option Nat)
    (x : State) : State :=
  if chains.any (fun c => reported == some c) then
    { x with chainId := reported.getD x.chainId }
  else x

/-! ## Client cache (`getClient`, createConfig.ts lines 121-189)

Clients are opaque objects; reference identity is modelled by a fresh
natural-number id per `createClient` call, drawn from `ClientsCache.nextId`.
The `clients` map (`Map<number, Client>`) is an association list from chain
id to client id. -/

/-- The `clients` memoization map together with the id supply that models
object identity of freshly built clients. -/
structure ClientsCache where
  entries : List (Nat × Nat)
  nextId : Nat
  deriving DecidableEq, Repr

/-- JS `Map.get` on the `clients` map. -/
def clientLookup (k : Nat) : List (Nat × Nat) → Option Nat
  | [] => none
  | (k', v) :: rest => if k' = k then some v else clientLookup k rest

/-- Errors thrown by `getClient`: `ChainNotConfiguredError`
(createConfig.ts line 133). -/
inductive GetClientError
  | chainNotConfigured
  deriving DecidableEq, Repr

/-- The connector loop of `getClient` (createConfig.ts lines 142-162):
skip every connector whose uid is not the store's `current`
(in particular, when `current` is `undefined` no connector matches), and
take the early-return branch at the first matching connector with
`isPriorityProvider`. -/
def hasPriorityCurrent (connectors : List Connector)
    (current : Option String) : Bool :=
  connectors.any (fun c => current == some c.uid && c.isPriorityProvider)

/-- Function `getClient` (createConfig.ts lines 122-189), with client construction
abstracted to drawing a fresh id:
1. resolve `chainId` from the argument, else the store's `chainId`;
2. `chain := chains.find(x => x.id === chainId)`; if no such chain, return
   the cached client for the store's current `chainId` when one exists,
   else throw `ChainNotConfigured` (lines 130-134);
3. return the memoized client for `chainId` when one exists (lines 137-140);
4. if the store's current connector declares `isPriorityProvider`, build and
   return a fresh client without touching the cache (lines 142-162);
5. otherwise build a client (static transports or the `client` option — both
   are fresh `createClient` calls) and cache it under `chainId` before
   returning (lines 164-188). -/
def getClient (chains : List Nat) (connectors : List Connector) (st : State)
    (cfgChainId : Option Nat) (cache : ClientsCache) :
    Except GetClientError (Nat × ClientsCache) :=
  let chainId := cfgChainId.getD st.chainId
  if chains.contains chainId then
    match clientLookup chainId cache.entries with
    | some client => .ok (client, cache)
    | none =>
      if hasPriorityCurrent connectors st.current then
        .ok (cache.nextId, { cache with nextId := cache.nextId + 1 })
      else
        .ok (cache.nextId,
          ⟨cache.entries ++ [(chainId, cache.nextId)], cache.nextId + 1⟩)
  else
    match clientLookup st.chainId cache.entries with
    | some client => .ok (client, cache)
    | none => .error .chainNotConfigured

/-! ## Public `setState` (createConfig.ts lines 333-344)

The candidate value is an arbitrary JavaScript value; the store commits
whatever the validation lets through (`store.setState(newState, true)`).
JavaScript values are embedded as `JsVal`. A function argument is resolved
to a value by calling it as an updater first (line 335); the model takes
the already-resolved candidate value. -/

/-- A JavaScript runtime value as far as `setState`'s validation can
observe it: `null`, `undefined`, primitives, arrays, `Map` objects and
plain objects (a field list keyed by property name). -/
inductive JsVal
  | vnull
  | vundef
  | vnum (n : Nat)
  | vstr (s : String)
  | vbool (b : Bool)
  | varr (elems : List JsVal)
  | vmap (entries : List (String × JsVal))
  | vobj (fields : List (String × JsVal))

/-- JS `typeof` on an embedded value. Note the JavaScript quirk
`typeof null === 'object'`. -/
def typeofStr : JsVal → String
  | .vnull => "object"
  | .vundef => "undefined"
  | .vnum _ => "number"
  | .vstr _ => "string"
  | .vbool _ => "boolean"
  | .varr _ => "object"
  | .vmap _ => "object"
  | .vobj _ => "object"

/-- Whether an object field list has a property named `k`. -/
def hasKey (k : String) : List (String × JsVal) → Bool
  | [] => false
  | (k', _) :: rest => k' = k ∨ hasKey k rest

/-- The JavaScript `in` operator, `k in v`, for the keys `setState` probes
(`chainId`, `connections`, `current`, `status` — never array indices or
`Map.prototype` member names): property lookup on an object, `false` on an
array or `Map` (entries of a `Map` are not properties), and a `TypeError`
on `null`/`undefined` and on primitives. -/
def inOp (k : String) : JsVal → Except JsError Bool
  | .vobj fields => .ok (hasKey k fields)
  | .varr _ => .ok false
  | .vmap _ => .ok false
  | _ => .error .typeError

/-- Line `Object.keys(initialState).some((x) => !(x in newState))`
(createConfig.ts line 340): probe the canonical keys left to right,
stopping at the first missing one; `in` may throw. -/
def someKeyMissing (keys : List String) (v : JsVal) : Except JsError Bool :=
  match keys with
  | [] => .ok false
  | k :: rest =>
    match inOp k v with
    | .error e => .error e
    | .ok true => someKeyMissing rest v
    | .ok false => .ok true

/-- The four keys of the canonical initial state, in the insertion order of
the object literal on createConfig.ts lines 195-200. -/
def initialStateKeys : List String :=
  ["chainId", "connections", "current", "status"]

/-- Encoding of a typed `Connection` as the JavaScript object it is. -/
def encodeConnection (c : Connection) : JsVal :=
  .vobj [("accounts", .varr (c.accounts.map .vstr)),
         ("chainId", .vnum c.chainId),
         ("connector", .vobj [("uid", .vstr c.connector.uid)])]

/-- The string value of a `status` field. -/
def statusStr : Status → String
  | .connected => "connected"
  | .connecting => "connecting"
  | .disconnected => "disconnected"
  | .reconnecting => "reconnecting"

/-- Encoding of a typed `State` as the JavaScript object a caller passes to
`setState`: a plain object with the four canonical fields, `connections`
being a `Map`. -/
def encodeState (s : State) : JsVal :=
  .vobj [("chainId", .vnum s.chainId),
         ("connections",
          .vmap (s.connections.map (fun e => (e.1, encodeConnection e.2)))),
         ("current",
          match s.current with
          | none => .vundef
          | some u => .vstr u),
         ("status", .vstr (statusStr s.status))]

/-- The public `setState` (createConfig.ts lines 333-344), after updater
resolution: if `typeof newState !== 'object'` replace it with the initial
state; then reset to the initial state when any canonical key is missing
(`isCorrupt`); commit the result with `replace = true`. The `in` probe
throws a `TypeError` when `newState` is `null` (which `typeof` classifies
as `'object'`). -/
def setStateModel (init : State) (value : JsVal) : Except JsError JsVal :=
  let newState := if typeofStr value = "object" then value else encodeState init
  match someKeyMissing initialStateKeys newState with
  | .error e => .error e
  | .ok corrupt => .ok (if corrupt then encodeState init else newState)

/-! ## Fallback transport (`experimental_connector`, src/unnamed/part_000)

The probe loop fires all factories concurrently (`forEach` with an async
callback) and each successful probe overwrites `successfulConnector`; a
factory that throws is caught and logged, and a provider that resolves to
`null` is not recorded. Providers are opaque; identity is a `Nat` id. -/

/-- The observable outcome of probing one connector factory
(part_000 lines 51-61): the factory throws, or its provider resolves to a
falsy value (`null`), or to a provider. -/
inductive FactoryOutcome
  | throws
  | providerNull
  | providerOk (providerId : Nat)
  deriving DecidableEq, Repr

/-- The value of `successfulConnector`'s provider after all probes settle
(part_000 lines 47-61): each successful probe overwrites the variable, so
the last success in settlement order wins and failures leave it alone;
it stays `null` when no probe succeeds. -/
def probeConnectors (fns : List FactoryOutcome) : Option Nat :=
  fns.foldl
    (fun acc fn =>
      match fn with
      | .providerOk p => some p
      | _ => acc)
    none

/-- Errors a `request` through the fallback transport can raise before
reaching a provider. The source defines no `NoConnectorAvailable` error
(the `if (!successfulConnector)` branch on part_000 lines 63-65 is an empty
`todo` comment); the only failure mode with no successful connector is the
`TypeError` thrown by the non-null assertion
`successfulConnector!.getProvider()` (line 73). -/
inductive TransportError
  | nullConnectorTypeError
  deriving DecidableEq, Repr

/-- The transport's `request` (part_000 lines 68-77): re-resolve the
successful connector's provider and forward `{method, params}`; responses
are abstracted as the pair (provider id, method). With no successful
connector the non-null assertion dereferences `null` and throws. -/
def transportRequest (successful : Option Nat) (method : String) :
    Except TransportError (Nat × String) :=
  match successful with
  | none => .error .nullConnectorTypeError
  | some p => .ok (p, method)

/-! ## Reachability of store states through the event mediator

The store starts at `initialState`; connector events drive it through the
`connect`/`change`/`disconnect` updaters, and the sync-connected-chain
subscription (enabled by default) applies `syncChainListener` to the
selector's current value after state changes. -/

/-- One store transition caused by the event mediator or the sync
subscription, for a fixed connector registry and chain list. -/
inductive Step (chains : List Nat) (connectors : List Connector) :
    State → State → Prop
  | connectEv (d : ConnectData) (s : State) :
      Step chains connectors s (connect connectors d s)
  | changeEv (d : ChangeData) (s s' : State) (hok : change d s = .ok s') :
      Step chains connectors s s'
  | disconnectEv (d : DisconnectData) (s : State) :
      Step chains connectors s (disconnect d s)
  | syncEv (s : State) :
      Step chains connectors s
        (syncChainListener chains (syncChainSelector s) s)

/-- States reachable from the initial state through event-mediator and
sync-subscription transitions. -/
inductive Reachable (chains : List Nat) (connectors : List Connector) :
    State → Prop
  | init : Reachable chains connectors (initialState chains)
  | step (s s' : State) (h : Reachable chains connectors s)
      (hs : Step chains connectors s s') : Reachable chains connectors s'

/-! ## Concrete instances used by the theorems below -/

/-- A connector with uid "a" and no priority-provider flag. -/
def connA : Connector := ⟨"a", false⟩

/-- A connector with uid "b" and no priority-provider flag. -/
def connB : Connector := ⟨"b", false⟩

/-- A connector with uid "c" and no priority-provider flag. -/
def connC : Connector := ⟨"c", false⟩

/-- A connected three-connection state whose connections were inserted in
the order a, c, b (as produced by the event sequence connect "a",
connect "c", connect "b"), so `current` is "b" and the earliest entry is
"a". -/
def s3 : State :=
  ⟨1,
   [("a", ⟨["0xa"], 1, connA⟩), ("c", ⟨["0xc"], 1, connC⟩),
    ("b", ⟨["0xb"], 1, connB⟩)],
   some "b", .connected⟩

/-- A connected state whose single connection's connector declares
`isPriorityProvider`. -/
def stPriority : State :=
  ⟨1, [("a", ⟨["0xa"], 1, ⟨"a", true⟩⟩)], some "a", .connected⟩

/-- A disconnected state on chain 1 with no connections. -/
def stEmpty : State := ⟨1, [], none, .disconnected⟩

/-- A connected two-connection state with insertion order a, b and
`current` "a". -/
def sTwo : State :=
  ⟨1, [("a", ⟨["0xa"], 1, connA⟩), ("b", ⟨["0xb"], 1, connB⟩)],
   some "a", .connected⟩

/-- A structurally well-shaped state whose `chainId` (999) is not among
the configured chains when those are `[1]`. -/
def badState : State := ⟨999, [], none, .disconnected⟩

/-! ## Association-list lemmas -/

/-- Looking up a key other than the one `mapSet` wrote is unchanged. -/
theorem mapLookup_mapSet_ne (k k' : String) (v : Connection)
    (l : List (String × Connection)) (h : k' ≠ k) :
    mapLookup k' (mapSet k v l) = mapLookup k' l := by
  induction l with
  | nil => simp [mapSet, mapLookup, Ne.symm h]
  | cons a rest ih =>
    obtain ⟨a1, a2⟩ := a
    by_cases hak : a1 = k
    · subst hak
      simp [mapSet, mapLookup, Ne.symm h]
    · simp [mapSet, mapLookup, hak, ih]

/-- After `mapDelete k`, the key `k` is gone. -/
theorem mapLookup_mapDelete_self (k : String)
    (l : List (String × Connection)) :
    mapLookup k (mapDelete k l) = none := by
  induction l with
  | nil => rfl
  | cons a rest ih =>
    obtain ⟨a1, a2⟩ := a
    by_cases hak : a1 = k
    · subst hak
      simpa [mapDelete, mapLookup] using ih
    · simpa [mapDelete, mapLookup, hak] using ih

/-- Deleting via `mapDelete k` does not touch entries under other keys. -/
theorem mapLookup_mapDelete_ne (k k' : String)
    (l : List (String × Connection)) (h : k' ≠ k) :
    mapLookup k' (mapDelete k l) = mapLookup k' l := by
  induction l with
  | nil => rfl
  | cons a rest ih =>
    obtain ⟨a1, a2⟩ := a
    by_cases hak : a1 = k
    · subst hak
      simpa [mapDelete, mapLookup, Ne.symm h] using ih
    · by_cases hak' : a1 = k'
      · subst hak'
        simp [mapDelete, mapLookup, hak]
      · simpa [mapDelete, mapLookup, hak, hak'] using ih

/-- Appending a fresh cache entry makes it findable when the key was not
cached before. -/
theorem clientLookup_append_self (k v : Nat) (l : List (Nat × Nat))
    (h : clientLookup k l = none) :
    clientLookup k (l ++ [(k, v)]) = some v := by
  induction l with
  | nil => simp [clientLookup]
  | cons a rest ih =>
    obtain ⟨a1, a2⟩ := a
    by_cases hak : a1 = k
    · simp [clientLookup, hak] at h
    · simp only [List.cons_append, clientLookup, hak, if_false] at h ⊢
      exact ih h

/-! ## Claim theorems -/

/-- C1: the spec says a fallback transport built from connector factories
none of which yields a working provider fails `request` with a
`NoConnectorAvailable` error. The code evaluated at such an input: with
factories that throw or resolve to a null provider, the probe leaves
`successfulConnector` null (its error-handling branch is an empty todo),
and `request` fails with the `TypeError` raised by the non-null assertion
`successfulConnector!.getProvider()` — no `NoConnectorAvailable` error
exists in the code. -/
theorem fallback_request_null_connector_type_error :
    probeConnectors [.throws, .providerNull, .throws] = none ∧
    transportRequest (probeConnectors [.throws, .providerNull, .throws])
        "eth_chainId" =
      .error .nullConnectorTypeError :=
  ⟨rfl, rfl⟩

/-- C2 counterexample: at the empty-connections initial state, a `change`
event for uid "a" (with fresh accounts and chain id supplied) makes the
handler throw a `TypeError` instead of returning the state unchanged, so
the handler is not a no-op on unknown uids. -/
theorem change_missing_uid_counterexample :
    change ⟨"a", some ["0x1"], some 5⟩ (initialState [1]) =
      .error .typeError :=
  rfl

/-- C2 (amended): for every state and every `change` event whose uid has
no entry in the connections map, the handler fails with a `TypeError`
(the non-null-asserted `connections.get(uid)` is dereferenced) rather
than acting as a no-op; no state is committed. -/
theorem change_missing_uid_throws (d : ChangeData) (s : State)
    (h : mapLookup d.uid s.connections = none) :
    change d s = .error .typeError := by
  unfold change
  rw [h]

/-- Witness for `change_missing_uid_throws` at a concrete input. -/
theorem change_missing_uid_throws_witness :
    change ⟨"zz", none, none⟩ stEmpty = .error .typeError :=
  change_missing_uid_throws ⟨"zz", none, none⟩ stEmpty rfl

/-- C6: the claim (and the code's own comment, "Reset state if it got set
to something not matching the base state") says a non-object `setState`
argument resets the store to the initial state without raising. The code
evaluated at the failing input `null`: `typeof null === 'object'` slips
past the first guard and the corruption probe `'chainId' in null` throws
a `TypeError`, for any canonical initial state. -/
theorem setState_null_throws (init : State) :
    setStateModel init JsVal.vnull = .error .typeError :=
  rfl

/-- C7: from a `disconnected` state (which, by the spec's data-model
invariant, has no connections), a `connect` event whose uid is a
registered connector yields `status = connected`, `current = uid`, and a
connections map holding exactly the entry for that uid built from the
event's accounts, the event's chain id and the registry's connector
reference; a uid absent from the registry leaves the state unchanged. -/
theorem connect_from_disconnected (connectors : List Connector)
    (s : State) (d : ConnectData)
    (hst : s.status = .disconnected) (hconn : s.connections = []) :
    (∀ c, connectors.find? (fun c => c.uid = d.uid) = some c →
      connect connectors d s =
        { s with
            connections := [(d.uid, ⟨d.accounts, d.chainId, c⟩)]
            current := some d.uid
            status := .connected }) ∧
    (connectors.find? (fun c => c.uid = d.uid) = none →
      connect connectors d s = s) := by
  constructor
  · intro c hc
    unfold connect
    rw [hst, hc, hconn]
    simp [mapSet]
  · intro hc
    unfold connect
    rw [hst, hc]
    simp

/-- Witness for `connect_from_disconnected` at a concrete input. -/
theorem connect_from_disconnected_witness :
    connect [connA] ⟨"a", ["0x1"], 1⟩ stEmpty =
      { stEmpty with
          connections := [("a", ⟨["0x1"], 1, connA⟩)]
          current := some "a"
          status := .connected } :=
  (connect_from_disconnected [connA] stEmpty ⟨"a", ["0x1"], 1⟩ rfl rfl).1
    connA (by decide)

/-- C8: disconnecting the current uid of a connected state resets to
`disconnected`/no current/empty connections when nothing remains, and
otherwise keeps `status = connected` and promotes the earliest remaining
connection (insertion order) to `current`, preserving `chainId`. -/
theorem disconnect_current_promotes (s : State) (uid : String)
    (hst : s.status = .connected) (_hcur : s.current = some uid) :
    (mapDelete uid s.connections = [] →
      disconnect ⟨uid⟩ s =
        { chainId := s.chainId, connections := [], current := none,
          status := .disconnected }) ∧
    (∀ k c rest, mapDelete uid s.connections = (k, c) :: rest →
      (disconnect ⟨uid⟩ s).status = .connected ∧
      (disconnect ⟨uid⟩ s).current = some c.connector.uid ∧
      (disconnect ⟨uid⟩ s).connections = (k, c) :: rest ∧
      (disconnect ⟨uid⟩ s).chainId = s.chainId) := by
  constructor
  · intro h
    unfold disconnect
    rw [h]
  · intro k c rest h
    unfold disconnect
    rw [h]
    exact ⟨hst, rfl, rfl, rfl⟩

/-- Witness for `disconnect_current_promotes`: disconnecting the current
"a" of the two-connection state `sTwo` promotes "b". -/
theorem disconnect_current_promotes_witness :
    (disconnect ⟨"a"⟩ sTwo).status = Status.connected ∧
    (disconnect ⟨"a"⟩ sTwo).current = some "b" ∧
    (disconnect ⟨"a"⟩ sTwo).connections = [("b", ⟨["0xb"], 1, connB⟩)] ∧
    (disconnect ⟨"a"⟩ sTwo).chainId = sTwo.chainId :=
  (disconnect_current_promotes sTwo "a" rfl rfl).2 "b" ⟨["0xb"], 1, connB⟩
    [] (by decide)

/-- C10: a `change` event for a uid with an existing connection modifies
only that connections entry — `chainId`, `current` and `status` are
unchanged, and the entry of every other uid (value and connector
reference) is unchanged. -/
theorem change_frame (s : State) (d : ChangeData) (conn : Connection)
    (h : mapLookup d.uid s.connections = some conn) :
    (change d s).map State.chainId = .ok s.chainId ∧
    (change d s).map State.current = .ok s.current ∧
    (change d s).map State.status = .ok s.status ∧
    ∀ k, k ≠ d.uid →
      (change d s).map (fun t => mapLookup k t.connections) =
        .ok (mapLookup k s.connections) := by
  unfold change
  rw [h]
  refine ⟨rfl, rfl, rfl, ?_⟩
  intro k hk
  simp only [Except.map]
  rw [mapLookup_mapSet_ne d.uid k _ s.connections hk]

/-- Witness for `change_frame`: changing "a" in `sTwo` leaves the "b"
entry untouched. -/
theorem change_frame_witness :
    (change ⟨"a", some ["0xnew"], some 7⟩ sTwo).map
        (fun t => mapLookup "b" t.connections) =
      .ok (mapLookup "b" sTwo.connections) :=
  (change_frame sTwo ⟨"a", some ["0xnew"], some 7⟩ ⟨["0xa"], 1, connA⟩
    rfl).2.2.2 "b" (by decide)

/-- C3 counterexample: in the connected three-connection state `s3`
(insertion order a, c, b; `current = "b"`), disconnecting the non-current
uid "c" reassigns `current` to "a" — the earliest remaining connection —
so `current` is not left unchanged. -/
theorem disconnect_noncurrent_changes_current :
    s3.status = Status.connected ∧
    s3.current = some "b" ∧
    mapLookup "c" s3.connections = some ⟨["0xc"], 1, connC⟩ ∧
    s3.connections.length = 3 ∧
    (disconnect ⟨"c"⟩ s3).current = some "a" ∧
    (some "a" : Option String) ≠ some "b" := by
  refine ⟨rfl, rfl, by decide, rfl, by decide, by decide⟩

/-- C3 (amended): disconnecting a non-current uid from a connected state
with remaining connections keeps `status` and `chainId`, removes exactly
that entry (every other key maps to its previous value), but reassigns
`current` to the connector uid of the earliest remaining connection —
which coincides with the previous current only when that connection is
the earliest remaining one (as in the two-connection case). -/
theorem disconnect_noncurrent_behavior (s : State) (uid k : String)
    (c : Connection) (rest : List (String × Connection))
    (hst : s.status = .connected) (_hcur : s.current ≠ some uid)
    (h : mapDelete uid s.connections = (k, c) :: rest) :
    (disconnect ⟨uid⟩ s).status = .connected ∧
    (disconnect ⟨uid⟩ s).chainId = s.chainId ∧
    (disconnect ⟨uid⟩ s).connections = (k, c) :: rest ∧
    (disconnect ⟨uid⟩ s).current = some c.connector.uid ∧
    mapLookup uid (disconnect ⟨uid⟩ s).connections = none ∧
    ∀ k', k' ≠ uid →
      mapLookup k' (disconnect ⟨uid⟩ s).connections =
        mapLookup k' s.connections := by
  unfold disconnect
  rw [h]
  refine ⟨hst, rfl, rfl, rfl, ?_, ?_⟩
  · show mapLookup uid ((k, c) :: rest) = none
    rw [← h]
    exact mapLookup_mapDelete_self uid s.connections
  · intro k' hk'
    show mapLookup k' ((k, c) :: rest) = mapLookup k' s.connections
    rw [← h]
    exact mapLookup_mapDelete_ne uid k' s.connections hk'

/-- Witness for `disconnect_noncurrent_behavior`: disconnect "b" (the
non-current entry) from `sTwo`; "a" stays current and "b"'s entry is the
only one removed. -/
theorem disconnect_noncurrent_behavior_witness :
    (disconnect ⟨"b"⟩ sTwo).status = Status.connected ∧
    (disconnect ⟨"b"⟩ sTwo).chainId = sTwo.chainId ∧
    (disconnect ⟨"b"⟩ sTwo).connections = [("a", ⟨["0xa"], 1, connA⟩)] ∧
    (disconnect ⟨"b"⟩ sTwo).current = some "a" ∧
    mapLookup "b" (disconnect ⟨"b"⟩ sTwo).connections = none ∧
    ∀ k', k' ≠ "b" →
      mapLookup k' (disconnect ⟨"b"⟩ sTwo).connections =
        mapLookup k' sTwo.connections :=
  disconnect_noncurrent_behavior sTwo "b" "a" ⟨["0xa"], 1, connA⟩ []
    rfl (by decide) (by decide)

/-- C9 counterexample: with configured chains 1 and 2, the store on chain
1 and a client previously cached for chain 2 (another chain), requesting
the unconfigured chain 99 still throws `ChainNotConfigured` — the
fallback only consults the cache entry of the store's current chain id,
not any previously cached client. -/
theorem getClient_unconfigured_ignores_other_cache :
    clientLookup 2 [(2, 7)] = some 7 ∧
    getClient [1, 2] [] stEmpty (some 99) ⟨[(2, 7)], 8⟩ =
      .error .chainNotConfigured := by
  refine ⟨rfl, rfl⟩

/-- C9 (amended): for an unconfigured requested chain id, `getClient`
returns the client cached under the store's current chain id when one
exists, and otherwise fails with `ChainNotConfigured` (even if clients
are cached for other chains). -/
theorem getClient_unconfigured_fallback (chains : List Nat)
    (connectors : List Connector) (st : State) (x : Nat)
    (cache : ClientsCache) (hx : chains.contains x = false) :
    (clientLookup st.chainId cache.entries = none →
      getClient chains connectors st (some x) cache =
        .error .chainNotConfigured) ∧
    ∀ cl, clientLookup st.chainId cache.entries = some cl →
      getClient chains connectors st (some x) cache = .ok (cl, cache) := by
  constructor
  · intro h
    unfold getClient
    simp only [Option.getD_some, hx, Bool.false_eq_true, if_false, h]
  · intro cl h
    unfold getClient
    simp only [Option.getD_some, hx, Bool.false_eq_true, if_false, h]

/-- Witness for `getClient_unconfigured_fallback`: with a client cached
for the store's current chain 1, requesting unconfigured chain 99
returns that cached client. -/
theorem getClient_unconfigured_fallback_witness :
    getClient [1, 2] [] stEmpty (some 99) ⟨[(1, 7)], 8⟩ =
      .ok (7, ⟨[(1, 7)], 8⟩) :=
  (getClient_unconfigured_fallback [1, 2] [] stEmpty 99 ⟨[(1, 7)], 8⟩
    (by decide)).2 7 (by decide)

/-- C4 counterexample: with chain 1 configured, an empty cache, and the
current connector declaring `isPriorityProvider`, two `getClient` calls
for chain 1 build two distinct clients (ids 0 and 1) and neither is
stored in the cache — the priority-provider branch returns without
caching, so the calls are not reference-equal. -/
theorem getClient_priority_not_cached :
    getClient [1] [⟨"a", true⟩] stPriority (some 1) ⟨[], 0⟩ =
      .ok (0, ⟨[], 1⟩) ∧
    getClient [1] [⟨"a", true⟩] stPriority (some 1) ⟨[], 1⟩ =
      .ok (1, ⟨[], 2⟩) ∧
    (0 : Nat) ≠ 1 := by
  refine ⟨rfl, rfl, by decide⟩

/-- C4 (amended): when no connector matching the store's current uid
declares `isPriorityProvider`, `getClient` is memoizing — a client built
by the static path is cached under the resolved chain id before being
returned, so a second call with the same arguments returns the identical
client and leaves the cache unchanged. The priority-provider path
(see `getClient_priority_not_cached`) returns a fresh uncached client. -/
theorem getClient_memoized_without_priority (chains : List Nat)
    (connectors : List Connector) (st : State) (cfg : Option Nat)
    (cache cache' : ClientsCache) (client : Nat)
    (hp : hasPriorityCurrent connectors st.current = false)
    (h : getClient chains connectors st cfg cache = .ok (client, cache')) :
    getClient chains connectors st cfg cache' = .ok (client, cache') := by
  unfold getClient at h ⊢
  by_cases hc : chains.contains (cfg.getD st.chainId) = true
  · simp only [hc, if_true] at h ⊢
    cases hl : clientLookup (cfg.getD st.chainId) cache.entries with
    | some cl =>
      rw [hl] at h
      simp only [Except.ok.injEq, Prod.mk.injEq] at h
      rw [← h.2, hl, h.1]
    | none =>
      rw [hl, hp] at h
      simp only [Bool.false_eq_true, if_false, Except.ok.injEq,
        Prod.mk.injEq] at h
      rw [← h.2,
        clientLookup_append_self (cfg.getD st.chainId) cache.nextId
          cache.entries hl, h.1]
  · simp only [hc, Bool.false_eq_true, if_false] at h ⊢
    cases hl : clientLookup st.chainId cache.entries with
    | some cl =>
      rw [hl] at h
      simp only [Except.ok.injEq, Prod.mk.injEq] at h
      rw [← h.2, hl, h.1]
    | none =>
      rw [hl] at h
      exact absurd h (by simp)

/-- Witness for `getClient_memoized_without_priority`: a first static
build caches the client (id 0) for chain 1, and the second call returns
the same client with the cache unchanged. -/
theorem getClient_memoized_without_priority_witness :
    getClient [1] [connA] sTwo (some 1) ⟨[(1, 0)], 1⟩ =
      .ok (0, ⟨[(1, 0)], 1⟩) :=
  getClient_memoized_without_priority [1] [connA] sTwo (some 1) ⟨[], 0⟩
    ⟨[(1, 0)], 1⟩ 0 rfl rfl

/-- The `connect` updater never touches `chainId`. -/
theorem connect_preserves_chainId (connectors : List Connector)
    (d : ConnectData) (s : State) :
    (connect connectors d s).chainId = s.chainId := by
  unfold connect
  split
  · rfl
  · split <;> rfl

/-- The `change` updater never touches `chainId` when it succeeds. -/
theorem change_preserves_chainId (d : ChangeData) (s s' : State)
    (hok : change d s = .ok s') : s'.chainId = s.chainId := by
  unfold change at hok
  cases hl : mapLookup d.uid s.connections with
  | none =>
    rw [hl] at hok
    exact absurd hok (by simp)
  | some conn =>
    rw [hl] at hok
    simp only [Except.ok.injEq] at hok
    rw [← hok]

/-- The `disconnect` updater never touches `chainId`. -/
theorem disconnect_preserves_chainId (d : DisconnectData) (s : State) :
    (disconnect d s).chainId = s.chainId := by
  unfold disconnect
  split <;> rfl

/-- The sync listener keeps `chainId` among the configured chains: it
either leaves the state alone or installs a reported chain id it found in
the configured list. -/
theorem syncChainListener_preserves_configured (chains : List Nat)
    (reported : Option Nat) (x : State) (h : x.chainId ∈ chains) :
    (syncChainListener chains reported x).chainId ∈ chains := by
  unfold syncChainListener
  split
  · next hc =>
    rcases List.any_eq_true.mp hc with ⟨c, hcmem, hbeq⟩
    have hrep : reported = some c := by simpa using hbeq
    show reported.getD x.chainId ∈ chains
    rw [hrep]
    exact hcmem
  · exact h

/-- When the reported chain id is not a configured chain's id, the sync
listener returns the state unchanged. -/
theorem syncChainListener_unconfigured_noop (chains : List Nat)
    (reported : Option Nat) (x : State)
    (hrep : ∀ c ∈ chains, reported ≠ some c) :
    syncChainListener chains reported x = x := by
  have h' : ¬ (chains.any (fun c => reported == some c) = true) := by
    intro hc
    rcases List.any_eq_true.mp hc with ⟨c, hcmem, hbeq⟩
    exact hrep c hcmem (by simpa using hbeq)
  unfold syncChainListener
  rw [if_neg h']

/-- C5 counterexample: the public `setState` commits the structurally
well-shaped state `badState` whose `chainId` 999 is not a configured
chain id (configured chains `[1]`) — it passes the corruption check
because all four canonical keys are present — so a store whose public
`setState` is reachable can hold an unconfigured `chainId`, contradicting
the claim that every reachable state's `chainId` equals a configured
chain's id. -/
theorem setState_commits_unconfigured_chainId :
    setStateModel (initialState [1]) (encodeState badState) =
      .ok (encodeState badState) ∧
    badState.chainId ∉ ([1] : List Nat) :=
  ⟨rfl, by decide⟩

/-- C5 (amended): every state reachable from the initial state through the
event-mediator handlers and the sync-connected-chain subscription has a
`chainId` equal to some configured chain's id (given a non-empty chain
list), and the sync listener leaves any state unchanged whenever the
active connection's reported chain id is not among the configured chains.
The invariant does not extend to states installed through the public
`setState` (see `setState_commits_unconfigured_chainId`). -/
theorem reachable_chainId_configured (chains : List Nat)
    (connectors : List Connector) (s : State) (hne : chains ≠ [])
    (hr : Reachable chains connectors s) :
    s.chainId ∈ chains ∧
    ∀ (t : State) (reported : Option Nat),
      (∀ c ∈ chains, reported ≠ some c) →
      syncChainListener chains reported t = t := by
  refine ⟨?_, fun t reported hrep =>
    syncChainListener_unconfigured_noop chains reported t hrep⟩
  induction hr with
  | init =>
    cases chains with
    | nil => exact absurd rfl hne
    | cons a rest => simp [initialState]
  | step s₀ s₁ h hs ih =>
    cases hs with
    | connectEv d _ =>
      rw [connect_preserves_chainId]
      exact ih
    | changeEv d _ _ hok =>
      rw [change_preserves_chainId d _ _ hok]
      exact ih
    | disconnectEv d _ =>
      rw [disconnect_preserves_chainId]
      exact ih
    | syncEv _ =>
      exact syncChainListener_preserves_configured chains
        (syncChainSelector s₀) s₀ ih

/-- Witness for `reachable_chainId_configured` at the initial state of a
one-chain configuration. -/
theorem reachable_chainId_configured_witness :
    (initialState [5]).chainId ∈ ([5] : List Nat) :=
  (reachable_chainId_configured [5] [] (initialState [5]) (by decide)
    Reachable.init).1

end Wagmi
